import Mathlib

/-!
Shallow embedding of the `go-terminator` package (graceful-termination
orchestrator): the registry of closeable resources, the signal-triggered
shutdown sequence with per-resource timeouts, result aggregation, the
completion gate, and the optional observer callback.

Modelling conventions:
* Durations (`time.Duration`, an `int64` of nanoseconds) are `Int`; the
  durations arising here are far below 2^63, so no overflow wrap is modelled.
* A caller-supplied close operation (`CloseFunc`) is opaque code; it is
  modelled by the wall-clock time it takes to return (`duration`) and the
  `error` it returns (`result`), matching the repository's own tests and
  example, whose close functions sleep and then return a fixed error.
* Go `error` values are `Option GoError` (`none` = `nil`).
* Channel/`select` timing is made explicit: each channel operand of a
  `select` has a ready time, and when several cases are ready at once the Go
  runtime picks one pseudo-randomly; that pick is an oracle parameter.
-/

set_option autoImplicit false

/-- Signal identity (`os.Signal`); modelled as the signal number. -/
abbrev Sig := Int

/-- A Go `error` value as observed in this package: either the
`context.DeadlineExceeded` error produced by an expired `WithTimeout`
context, or an arbitrary error returned by a caller's close function. -/
inductive GoError
  | deadlineExceeded
  | closeFailure (msg : String)
deriving DecidableEq, Repr, Inhabited

/-- `TerminationStatus` from types.go: `SUCCESS` or `FAILED`. -/
inductive TerminationStatus
  | SUCCESS
  | FAILED
deriving DecidableEq, Repr, Inhabited

/-- `TerminationResultData` from types.go: name, error (if any), status. -/
structure TerminationResultData where
  Name : String
  Error : Option GoError
  Status : TerminationStatus
deriving DecidableEq, Repr, Inhabited

/-- `TerminationResult` from types.go: the triggering signal, the count of
resources that failed or timed out, and one record per closed resource. -/
structure TerminationResult where
  Signal : Sig
  FailedOrTimeoutCount : Nat
  Result : List TerminationResultData
deriving DecidableEq, Repr, Inhabited

/-- A caller-supplied close operation (`CloseFunc`), modelled opaquely by
the time it takes to return and the error it returns.  The close functions
in the repository's tests and example ignore their context argument, so the
operation's behaviour does not depend on cancellation. -/
structure CloseOp where
  duration : Nat
  result : Option GoError
deriving DecidableEq, Repr, Inhabited

/-- `payload` from the implementation file: one registered resource. -/
structure payload where
  Name : String
  Timeout : Int
  Close : CloseOp
deriving DecidableEq, Repr, Inhabited

/-- The `terminator` struct.  The two channels are modelled elsewhere (the
signal channel by the arrival model `monitorFires`, the completion channel
by the timed model `Wait`); `callbackFunc` is caller code, so only its
presence (`!= nil`) is modelled. -/
structure terminator where
  closersStack : List payload
  subscribedSignals : List Sig
  callbackSet : Bool
deriving Repr

/-- `NewTerminator`: empty stack, subscription to `closeSignals`, no
callback set.  (The background monitor goroutine it spawns is modelled by
`startMonitorTrace`.) -/
def NewTerminator (closeSignals : List Sig) : terminator :=
  { closersStack := [], subscribedSignals := closeSignals, callbackSet := false }

/-- `AddWithTimeout`: appends a payload with the given timeout. -/
def terminator.AddWithTimeout (t : terminator) (name : String) (close : CloseOp)
    (timeout : Int) : terminator :=
  { t with closersStack :=
      t.closersStack ++ [{ Name := name, Close := close, Timeout := timeout }] }

/-- `Add`: registers a resource with no timeout, exactly as the source does,
by delegating to `AddWithTimeout` with timeout `0`. -/
def terminator.Add (t : terminator) (name : String) (close : CloseOp) : terminator :=
  t.AddWithTimeout name close 0

/-- `SetCallback`: records that a callback function is now set. -/
def terminator.SetCallback (t : terminator) : terminator :=
  { t with callbackSet := true }

/-- `ctx.Err()` of an expired `context.WithTimeout` context: always the
non-nil `context.DeadlineExceeded`.  (Consequently the source's recheck
`if err == nil { err = closer.Close(ctx) }` inside the `ctx.Done()` case is
dead code and the branch below never falls through to `Close`.) -/
def ctxErrExpired : Option GoError := some GoError.deadlineExceeded

/-- The error computed by the `select` inside `closeStack`'s goroutine.

Upon entering the `select`, Go evaluates the right-hand side of the send
`errChan <- closer.Close(ctx)`, so `closer.Close(ctx)` runs to completion
first, taking `closer.Close.duration` time.  Only then are the cases raced:
* the buffered send is always ready;
* `<-ctx.Done()` is ready iff a timeout context was created
  (`closer.Timeout > 0`) and its deadline `closer.Timeout` has already
  passed when the close returns (`closer.Timeout ≤ duration`).
When both are ready the runtime picks pseudo-randomly: `pick = true` means
the `ctx.Done()` case is chosen, `pick = false` the send case. -/
def closeStackError (pick : Bool) (closer : payload) : Option GoError :=
  if 0 < closer.Timeout ∧ closer.Timeout ≤ (closer.Close.duration : Int) ∧ pick = true then
    match ctxErrExpired with
    | none => closer.Close.result
    | some e => some e
  else closer.Close.result

/-- `closeStack`: the single `TerminationResultData` value delivered on the
result channel for one resource.  `Status` is `SUCCESS` exactly when the
computed error is `nil`, as in the source. -/
def closeStack (pick : Bool) (closer : payload) : TerminationResultData :=
  { Name := closer.Name
    Error := closeStackError pick closer
    Status := if closeStackError pick closer = none then TerminationStatus.SUCCESS
              else TerminationStatus.FAILED }

/-- Time the caller of `closeStack` waits before the result channel yields:
the result is sent only after `closer.Close` has returned (the send's
right-hand side is evaluated on `select` entry), so the full close duration
elapses regardless of any timeout. -/
def closeElapsed (closer : payload) : Nat := closer.Close.duration

/-- The loop body of `closeAll`, iterating `stackIndex` from
`len(closersStack) - 1` down to `0`.  The fuel argument is
`stackIndex + 1`, so `closeAllLoop oracle stack (i + 1) res` processes index
`i` and recurses.  `oracle i` is the `select` pick for index `i`. -/
def closeAllLoop (oracle : Nat → Bool) (stack : List payload) :
    Nat → TerminationResult → TerminationResult
  | 0, res => res
  | i + 1, res =>
      let termData := closeStack (oracle i) (stack.getD i default)
      closeAllLoop oracle stack i
        { res with
          FailedOrTimeoutCount :=
            if termData.Error ≠ none then res.FailedOrTimeoutCount + 1
            else res.FailedOrTimeoutCount
          Result := res.Result ++ [termData] }

/-- `closeAll`: closes every registered resource from the top of the stack
down, accumulating records and the failed-or-timeout counter. -/
def closeAll (oracle : Nat → Bool) (t : terminator) (res : TerminationResult) :
    TerminationResult :=
  closeAllLoop oracle t.closersStack t.closersStack.length res

/-- The `TerminationResult` assembled by `startMonitor` after consuming
signal `s`: initialized with the signal, a zero counter and an empty record
list, then filled in by `closeAll`. -/
def monitorReport (oracle : Nat → Bool) (t : terminator) (s : Sig) : TerminationResult :=
  closeAll oracle t { Signal := s, FailedOrTimeoutCount := 0, Result := [] }

/-- Observable events of the monitor goroutine, in program order. -/
inductive Event
  | trigger (s : Sig)
  | closeRes (d : TerminationResultData)
  | callback (r : TerminationResult)
  | unsubscribe
  | completed
deriving DecidableEq, Repr

/-- The linear trace of `startMonitor` (a single goroutine, so its events
are totally ordered): consume one signal, receive the close records one by
one in stack order, invoke the callback iff one is set, call `unsubscribe`
(`signal.Stop`), then `close(completedChan)`. -/
def startMonitorTrace (oracle : Nat → Bool) (t : terminator) (s : Sig) : List Event :=
  Event.trigger s :: ((monitorReport oracle t s).Result.map Event.closeRes)
    ++ (if t.callbackSet then [Event.callback (monitorReport oracle t s)] else [])
    ++ [Event.unsubscribe, Event.completed]

/-- Discriminator for callback events. -/
def isCallbackEv : Event → Bool
  | .callback _ => true
  | _ => false

/-- Discriminator for close-record events. -/
def isCloseEv : Event → Bool
  | .closeRes _ => true
  | _ => false

/-- Discriminator for the unsubscribe event. -/
def isUnsubEv : Event → Bool
  | .unsubscribe => true
  | _ => false

/-- Discriminator for the completion event. -/
def isCompletedEv : Event → Bool
  | .completed => true
  | _ => false

/-- `signal.Notify(sigc, closeSignals...)` relays an incoming signal to the
channel iff it is one of `closeSignals` — except that, per the Go `os/signal`
documentation, calling `Notify` with no signals at all relays EVERY incoming
signal. -/
def signalNotifyRelays (closeSignals : List Sig) (incoming : Sig) : Bool :=
  closeSignals.isEmpty || closeSignals.contains incoming

/-- Whether the monitor's blocking receive `s := <-t.signalChan` ever
returns, given the process receives the OS signals `arrivals` (in order):
it fires iff some arriving signal is relayed to the channel. -/
def monitorFires (closeSignals : List Sig) (arrivals : List Sig) : Bool :=
  arrivals.any (signalNotifyRelays closeSignals)

/-- The `select` in `Wait`, resolved by ready times: the channel case wins
if it is ready strictly first, the timer case if it is ready strictly
first, and a simultaneous tie is a runtime race decided by `tie`.
`chanReady = none` means the channel never becomes ready. -/
def selectFirstReady (chanReady : Option Int) (timerReady : Int) (tie : Bool) : Bool :=
  match chanReady with
  | none => false
  | some a => if a < timerReady then true else if timerReady < a then false else tie

/-- `Wait(timeout)` called at absolute time `callTime`:
a `select` between receiving from `completedChan` — ready from the moment
the channel is closed (`completedAt`; `none` if it never closes) — and
`time.After(timeout)`, which fires `timeout` after the call (immediately
for non-positive timeouts).  A closed channel stays ready forever, so every
later call sees it ready at once; `Wait` is safe to call any number of
times. -/
def Wait (completedAt : Option Nat) (callTime : Nat) (timeout : Int) (tie : Bool) : Bool :=
  selectFirstReady (completedAt.map (fun tc => max (tc : Int) (callTime : Int)))
    ((callTime : Int) + max timeout 0) tie

/-- Total time `closeAll` takes: the records are delivered sequentially and
each only when its close operation returns, so the durations add up. -/
def shutdownDuration (stack : List payload) : Nat :=
  (stack.map closeElapsed).sum

/-- Absolute time at which `close(t.completedChan)` executes when the
trigger is consumed at `trigTime`: the whole stack is closed sequentially,
then the callback, `signal.Stop` and `close` happen without further
blocking. -/
def completionTime (trigTime : Nat) (t : terminator) : Nat :=
  trigTime + shutdownDuration t.closersStack

/-- The records produced for stack indices `i - 1, i - 2, ..., 0`, in that
order — the order `closeAllLoop` appends them. -/
def recordsDesc (oracle : Nat → Bool) (stack : List payload) : Nat → List TerminationResultData
  | 0 => []
  | i + 1 => closeStack (oracle i) (stack.getD i default) :: recordsDesc oracle stack i

/-! ### Helper lemmas about the shutdown loop -/

theorem closeAllLoop_Result (oracle : Nat → Bool) (stack : List payload) :
    ∀ (i : Nat) (res : TerminationResult),
      (closeAllLoop oracle stack i res).Result = res.Result ++ recordsDesc oracle stack i := by
  intro i
  induction i with
  | zero => intro res; simp [closeAllLoop, recordsDesc]
  | succ i ih =>
      intro res
      simp [closeAllLoop, recordsDesc, ih]

theorem closeAllLoop_Count (oracle : Nat → Bool) (stack : List payload) :
    ∀ (i : Nat) (res : TerminationResult),
      (closeAllLoop oracle stack i res).FailedOrTimeoutCount
        = res.FailedOrTimeoutCount
          + (recordsDesc oracle stack i).countP (fun d => d.Error.isSome) := by
  intro i
  induction i with
  | zero => intro res; simp [closeAllLoop, recordsDesc]
  | succ i ih =>
      intro res
      simp only [closeAllLoop, recordsDesc, ih, List.countP_cons]
      rcases h : (closeStack (oracle i) (stack.getD i default)).Error with _ | e <;>
        (simp [h]; try omega)

theorem recordsDesc_eq_range_map (oracle : Nat → Bool) (stack : List payload) :
    ∀ i : Nat,
      recordsDesc oracle stack i
        = (List.range i).reverse.map (fun k => closeStack (oracle k) (stack.getD k default)) := by
  intro i
  induction i with
  | zero => simp [recordsDesc]
  | succ i ih => simp [recordsDesc, List.range_succ, ih]

theorem recordsDesc_length (oracle : Nat → Bool) (stack : List payload) (i : Nat) :
    (recordsDesc oracle stack i).length = i := by
  simp [recordsDesc_eq_range_map]

theorem recordsDesc_names (oracle : Nat → Bool) (stack : List payload) :
    ∀ i : Nat, i ≤ stack.length →
      (recordsDesc oracle stack i).map (fun d => d.Name)
        = ((stack.take i).map (fun p => p.Name)).reverse := by
  intro i
  induction i with
  | zero => intro _; simp [recordsDesc]
  | succ i ih =>
      intro h
      have hi : i < stack.length := Nat.lt_of_succ_le h
      have hget : stack[i]? = some stack[i] := List.getElem?_eq_getElem hi
      have hgetD : stack.getD i default = stack[i] := by
        simp [List.getD, hget]
      rw [List.take_succ]
      simp only [recordsDesc, List.map_cons, List.map_append, List.reverse_append]
      rw [ih (Nat.le_of_lt hi), hget, hgetD]
      simp [closeStack]

theorem monitorReport_Result (oracle : Nat → Bool) (t : terminator) (s : Sig) :
    (monitorReport oracle t s).Result
      = recordsDesc oracle t.closersStack t.closersStack.length := by
  simp [monitorReport, closeAll, closeAllLoop_Result]

theorem monitorReport_length (oracle : Nat → Bool) (t : terminator) (s : Sig) :
    (monitorReport oracle t s).Result.length = t.closersStack.length := by
  rw [monitorReport_Result, recordsDesc_length]

theorem closeStack_status_iff (pick : Bool) (p : payload) :
    (closeStack pick p).Status = TerminationStatus.SUCCESS
      ↔ (closeStack pick p).Error = none := by
  rcases h : closeStackError pick p with _ | e <;> simp [closeStack, h]

theorem mem_recordsDesc (oracle : Nat → Bool) (stack : List payload)
    (i : Nat) (d : TerminationResultData) (hd : d ∈ recordsDesc oracle stack i) :
    ∃ k, d = closeStack (oracle k) (stack.getD k default) := by
  rw [recordsDesc_eq_range_map] at hd
  rcases List.mem_map.mp hd with ⟨k, _, hk⟩
  exact ⟨k, hk.symm⟩

theorem closeStack_isSome_eq (pick : Bool) (p : payload) :
    (closeStack pick p).Error.isSome
      = decide ((closeStack pick p).Status ≠ TerminationStatus.SUCCESS) := by
  rcases h : closeStackError pick p with _ | e <;> simp [closeStack, h]

/-! ### Claim theorems -/

/-- C9: `Add(name, close)` is equivalent to `AddWithTimeout(name, close, 0)`:
both leave the terminator in the same state, appending the same payload with
timeout `0` (no enforced deadline). -/
theorem add_eq_addWithTimeout_zero (t : terminator) (name : String) (close : CloseOp) :
    t.Add name close = t.AddWithTimeout name close 0
    ∧ (t.Add name close).closersStack
        = t.closersStack ++ [{ Name := name, Timeout := 0, Close := close }] :=
  ⟨rfl, rfl⟩

/-- C2: once the trigger fires, the report contains exactly one outcome
record per registered resource, in exactly reverse registration order (the
record at position `j` is the close of stack index `length - 1 - j`), and
this holds unconditionally — failures or timeouts of earlier closes never
abort the sequence, every resource is attempted exactly once. -/
theorem report_reverse_order (oracle : Nat → Bool) (t : terminator) (s : Sig) :
    (monitorReport oracle t s).Result
      = (List.range t.closersStack.length).reverse.map
          (fun i => closeStack (oracle i) (t.closersStack.getD i default))
    ∧ (monitorReport oracle t s).Result.map (fun d => d.Name)
        = (t.closersStack.map (fun p => p.Name)).reverse
    ∧ (monitorReport oracle t s).Result.length = t.closersStack.length := by
  refine ⟨?_, ?_, monitorReport_length oracle t s⟩
  · rw [monitorReport_Result, recordsDesc_eq_range_map]
  · rw [monitorReport_Result,
      recordsDesc_names oracle t.closersStack t.closersStack.length le_rfl,
      List.take_length]

/-- C5: in every completed report, `FailedOrTimeoutCount` equals the number
of outcome records whose status is not `SUCCESS`. -/
theorem failed_count_eq_non_success (oracle : Nat → Bool) (t : terminator) (s : Sig) :
    (monitorReport oracle t s).FailedOrTimeoutCount
      = (monitorReport oracle t s).Result.countP
          (fun d => decide (d.Status ≠ TerminationStatus.SUCCESS)) := by
  have hc : (monitorReport oracle t s).FailedOrTimeoutCount
      = (recordsDesc oracle t.closersStack t.closersStack.length).countP
          (fun d => d.Error.isSome) := by
    simp [monitorReport, closeAll, closeAllLoop_Count]
  rw [hc, monitorReport_Result]
  refine List.countP_congr ?_
  intro d hd
  rcases mem_recordsDesc _ _ _ _ hd with ⟨k, rfl⟩
  rw [closeStack_isSome_eq]

/-- C10: every outcome record of the shutdown sequence has status `SUCCESS`
iff its error is `nil`; a `FAILED` record always carries a non-nil error. -/
theorem record_status_iff_error (oracle : Nat → Bool) (t : terminator) (s : Sig)
    (d : TerminationResultData) (hd : d ∈ (monitorReport oracle t s).Result) :
    (d.Status = TerminationStatus.SUCCESS ↔ d.Error = none)
    ∧ (d.Status = TerminationStatus.FAILED ↔ d.Error ≠ none) := by
  rw [monitorReport_Result] at hd
  rcases mem_recordsDesc _ _ _ _ hd with ⟨k, rfl⟩
  constructor
  · exact closeStack_status_iff _ _
  · rcases h : closeStackError (oracle k) (t.closersStack.getD k default) with _ | e <;>
      simp [closeStack, h]

/-- Witness for C10 at a concrete input: one registered resource whose close
returns an error; its record is `FAILED` with that error. -/
theorem record_status_iff_error_witness :
    ({ Name := "db", Error := some (GoError.closeFailure "boom"),
       Status := TerminationStatus.FAILED } : TerminationResultData)
        ∈ (monitorReport (fun _ => false)
            ((NewTerminator [2]).Add "db" { duration := 3, result := some (GoError.closeFailure "boom") })
            2).Result
    ∧ (({ Name := "db", Error := some (GoError.closeFailure "boom"),
          Status := TerminationStatus.FAILED } : TerminationResultData).Status
          = TerminationStatus.SUCCESS
        ↔ ({ Name := "db", Error := some (GoError.closeFailure "boom"),
             Status := TerminationStatus.FAILED } : TerminationResultData).Error = none)
    ∧ (({ Name := "db", Error := some (GoError.closeFailure "boom"),
          Status := TerminationStatus.FAILED } : TerminationResultData).Status
          = TerminationStatus.FAILED
        ↔ ({ Name := "db", Error := some (GoError.closeFailure "boom"),
             Status := TerminationStatus.FAILED } : TerminationResultData).Error ≠ none) :=
  ⟨by decide, record_status_iff_error (fun _ => false)
      ((NewTerminator [2]).Add "db" { duration := 3, result := some (GoError.closeFailure "boom") })
      2 _ (by decide)⟩

/-- C8: a resource with no deadline (`Timeout = 0`, as `Add` registers) runs
its close to completion — the caller waits the full close duration — and the
record faithfully reflects the close's own result: `SUCCESS` with nil error
if it returned nil, `FAILED` with that error otherwise. -/
theorem no_deadline_faithful (pick : Bool) (p : payload) (h : p.Timeout = 0) :
    closeStack pick p
      = { Name := p.Name, Error := p.Close.result,
          Status := if p.Close.result = none then TerminationStatus.SUCCESS
                    else TerminationStatus.FAILED }
    ∧ closeElapsed p = p.Close.duration := by
  have he : closeStackError pick p = p.Close.result := by
    simp [closeStackError, h]
  exact ⟨by simp [closeStack, he], rfl⟩

/-- Witness for C8 at a concrete input: a no-deadline resource whose close
takes 100 time units and succeeds. -/
theorem no_deadline_faithful_witness :
    ({ Name := "app2", Timeout := 0, Close := { duration := 100, result := none } } : payload).Timeout = 0
    ∧ closeStack true { Name := "app2", Timeout := 0, Close := { duration := 100, result := none } }
        = { Name := "app2", Error := none, Status := TerminationStatus.SUCCESS }
    ∧ closeElapsed { Name := "app2", Timeout := 0, Close := { duration := 100, result := none } } = 100 := by
  refine ⟨rfl, ?_, rfl⟩
  have h := no_deadline_faithful true
    { Name := "app2", Timeout := 0, Close := { duration := 100, result := none } } rfl
  simpa using h.1

/-- C1 (code bug evidence): a resource with deadline 500 whose close takes
1000 and would succeed.  Because Go evaluates the send's right-hand side on
entering the `select`, the goroutine first waits the full 1000 for the close
(`closeElapsed`), and then BOTH cases are ready, so the runtime picks one at
random: picking the `ctx.Done()` case records the timeout failure, but
picking the send case records `SUCCESS` with a nil error — the close's
result is waited upon and applied, contradicting the claimed
always-FAILED-with-timeout outcome. -/
theorem timeout_race_eval :
    closeStack true { Name := "app1", Timeout := 500, Close := { duration := 1000, result := none } }
      = { Name := "app1", Error := some GoError.deadlineExceeded,
          Status := TerminationStatus.FAILED }
    ∧ closeStack false { Name := "app1", Timeout := 500, Close := { duration := 1000, result := none } }
      = { Name := "app1", Error := none, Status := TerminationStatus.SUCCESS }
    ∧ closeElapsed { Name := "app1", Timeout := 500, Close := { duration := 1000, result := none } }
        = 1000 := by
  refine ⟨?_, ?_, rfl⟩ <;> decide

theorem countP_map_closeRes (p : Event → Bool) (hp : ∀ d, p (Event.closeRes d) = false)
    (R : List TerminationResultData) : (R.map Event.closeRes).countP p = 0 := by
  induction R with
  | nil => rfl
  | cons d R ih => simp [List.countP_cons, hp, ih]

theorem filter_map_closeRes (p : Event → Bool) (hp : ∀ d, p (Event.closeRes d) = false)
    (R : List TerminationResultData) : (R.map Event.closeRes).filter p = [] := by
  induction R with
  | nil => rfl
  | cons d R ih => simp [List.filter_cons, hp, ih]

/-- C4: the observer callback appears in the monitor's trace exactly once
when set and not at all when unset; when it appears it carries the full
report (one record per registered resource) and sits strictly after every
close-record event and strictly before the completion event, as the trace
equation shows; the completion event happens exactly once either way. -/
theorem callback_once_after_closes (oracle : Nat → Bool) (t : terminator) (s : Sig) :
    (startMonitorTrace oracle t s).countP isCallbackEv = (if t.callbackSet then 1 else 0)
    ∧ (startMonitorTrace oracle t s).filter isCallbackEv
        = (if t.callbackSet then [Event.callback (monitorReport oracle t s)] else [])
    ∧ startMonitorTrace oracle t s
        = (Event.trigger s :: ((monitorReport oracle t s).Result.map Event.closeRes))
          ++ (startMonitorTrace oracle t s).filter isCallbackEv
          ++ [Event.unsubscribe, Event.completed]
    ∧ (monitorReport oracle t s).Result.length = t.closersStack.length
    ∧ (startMonitorTrace oracle t s).countP isCompletedEv = 1 := by
  refine ⟨?_, ?_, ?_, monitorReport_length oracle t s, ?_⟩
  · cases hcb : t.callbackSet <;>
      simp [startMonitorTrace, hcb, List.countP_cons, List.countP_append,
        countP_map_closeRes isCallbackEv (fun d => rfl), isCallbackEv]
  · cases hcb : t.callbackSet <;>
      simp [startMonitorTrace, hcb, List.filter_cons, List.filter_append,
        filter_map_closeRes isCallbackEv (fun d => rfl), isCallbackEv]
  · cases hcb : t.callbackSet <;>
      simp [startMonitorTrace, hcb, List.filter_cons, List.filter_append,
        filter_map_closeRes isCallbackEv (fun d => rfl), isCallbackEv]
  · cases hcb : t.callbackSet <;>
      simp [startMonitorTrace, hcb, List.countP_cons, List.countP_append,
        countP_map_closeRes isCompletedEv (fun d => rfl), isCompletedEv]

/-- C6 counterexample: with one registered resource, the monitor's trace is
trigger, close record, unsubscribe, completed — so the unsubscribe step is
not among the first two events: it does NOT follow the trigger immediately
but runs only after the shutdown sequence (and the report) is complete,
refuting the claim as stated. -/
theorem unsubscribe_not_immediate_counterexample :
    startMonitorTrace (fun _ => false)
        ((NewTerminator [2]).Add "app1" { duration := 1, result := none }) 2
      = [Event.trigger 2,
         Event.closeRes { Name := "app1", Error := none, Status := TerminationStatus.SUCCESS },
         Event.unsubscribe, Event.completed]
    ∧ ¬ ((startMonitorTrace (fun _ => false)
          ((NewTerminator [2]).Add "app1" { duration := 1, result := none }) 2).take 2).contains
        Event.unsubscribe := by
  constructor
  · decide
  · decide

/-- C6 (amended): the monitor unsubscribes from the trigger source exactly
once, and only after the shutdown sequence completes — the unsubscribe event
is the second-to-last event of the trace, after every close record and any
callback, immediately before the completion signal opens. -/
theorem unsubscribe_after_sequence (oracle : Nat → Bool) (t : terminator) (s : Sig) :
    (startMonitorTrace oracle t s).countP isUnsubEv = 1
    ∧ (startMonitorTrace oracle t s).drop ((startMonitorTrace oracle t s).length - 2)
        = [Event.unsubscribe, Event.completed] := by
  constructor
  · cases hcb : t.callbackSet <;>
      simp [startMonitorTrace, hcb, List.countP_cons, List.countP_append,
        countP_map_closeRes isUnsubEv (fun d => rfl), isUnsubEv]
  · have htr : startMonitorTrace oracle t s
        = (Event.trigger s :: ((monitorReport oracle t s).Result.map Event.closeRes)
            ++ (if t.callbackSet then [Event.callback (monitorReport oracle t s)] else []))
          ++ [Event.unsubscribe, Event.completed] := by
      simp [startMonitorTrace]
    rw [htr, List.length_append]
    simp only [List.length_cons, List.length_nil]
    rw [Nat.add_sub_cancel]
    exact List.drop_left _ _

/-- C7 counterexample: a terminator constructed with an empty signal list is
subscribed — via `signal.Notify` called with no signal arguments, which
relays every incoming signal — to ALL signals, so an arriving interrupt
signal (2) is relayed and the monitor fires, refuting the claim that it
never fires. -/
theorem empty_signals_fires_counterexample :
    monitorFires (NewTerminator []).subscribedSignals [2] = true := by decide

/-- C7 (amended): with an empty trigger-identity set the monitor listens for
every signal: it fires exactly when at least one signal arrives, and only a
process that never receives any signal leaves it dormant. -/
theorem empty_signals_fires_iff (arrivals : List Sig) :
    monitorFires (NewTerminator []).subscribedSignals arrivals = !arrivals.isEmpty := by
  cases arrivals <;> simp [monitorFires, NewTerminator, signalNotifyRelays]

/-- C3: `Wait` returns true when the completion channel is (or becomes)
ready strictly before the caller's timer fires, false when the timer fires
strictly first — also when the sequence never completes at all — and a call
made at or after the completion time with any positive timeout returns true
(the closed channel is immediately ready, so repeated and late calls never
re-block).  A simultaneous tie is a runtime race and is left to `tie`. -/
theorem wait_iff_completed (t : terminator) (trigTime callTime : Nat) (timeout : Int)
    (tie : Bool) :
    (max (completionTime trigTime t : Int) (callTime : Int) < (callTime : Int) + max timeout 0 →
      Wait (some (completionTime trigTime t)) callTime timeout tie = true)
    ∧ ((callTime : Int) + max timeout 0 < max (completionTime trigTime t : Int) (callTime : Int) →
      Wait (some (completionTime trigTime t)) callTime timeout tie = false)
    ∧ Wait none callTime timeout tie = false
    ∧ (completionTime trigTime t ≤ callTime → 0 < timeout →
      Wait (some (completionTime trigTime t)) callTime timeout tie = true) := by
  refine ⟨?_, ?_, rfl, ?_⟩
  · intro h
    simp [Wait, selectFirstReady, h]
  · intro h
    have h2 := lt_asymm h
    simp [Wait, selectFirstReady, h, h2]
  · intro h1 h2
    have hm : max ((completionTime trigTime t : Nat) : Int) (callTime : Int) = (callTime : Int) :=
      max_eq_right (Nat.cast_le.mpr h1)
    have hp : (0 : Int) < max timeout 0 := lt_max_iff.mpr (Or.inl h2)
    have ht : (callTime : Int) < (callTime : Int) + max timeout 0 :=
      lt_add_of_pos_right _ hp
    simp [Wait, selectFirstReady, hm, ht]

/-- Witness for C3 at concrete inputs: one resource whose close takes 3 time
units, trigger at time 0 (completion at time 3).  A call at time 10 with
timeout 5 (after completion) returns true; a call at time 0 with timeout 1
(timer fires at 1, before completion at 3) returns false. -/
theorem wait_iff_completed_witness :
    Wait (some (completionTime 0 ((NewTerminator [2]).Add "a" { duration := 3, result := none })))
        10 5 false = true
    ∧ Wait (some (completionTime 0 ((NewTerminator [2]).Add "a" { duration := 3, result := none })))
        0 1 false = false := by
  constructor
  · exact (wait_iff_completed ((NewTerminator [2]).Add "a" { duration := 3, result := none })
      0 10 5 false).2.2.2 (by decide) (by decide)
  · exact (wait_iff_completed ((NewTerminator [2]).Add "a" { duration := 3, result := none })
      0 0 1 false).2.1 (by decide)
